import Mathlib

/-!
Verification development for the hyperliquid-requester market-making pipeline.

The Python sources are shallowly embedded: Python floats are modelled as
rationals (`ℚ`), Python dictionaries as `Option`-valued lookup functions,
fallible calls as `Except`/`Option`, and the external JSON parser
(`json.loads`, part of the Python standard library, not of this repository)
as an abstract parameter.  Python's built-in `round` uses round-half-to-even,
modelled by `roundHalfEven` below.
-/

namespace HyperliquidSpec

/-! ## Python-style rounding (banker's rounding, as used by `round`) -/

/-- Floor of a rational number. -/
def ratFloor (q : ℚ) : ℤ := ⌊q⌋

/-- Python's `round(x)`: round half to even. -/
def roundHalfEven (q : ℚ) : ℤ :=
  let f := ratFloor q
  let frac := q - (f : ℚ)
  if frac < 1/2 then f
  else if 1/2 < frac then f + 1
  else if f % 2 = 0 then f else f + 1

/-- Python's `round(x, n)` for a non-negative digit count `n`. -/
def pyRoundTo (q : ℚ) (n : ℕ) : ℚ :=
  (roundHalfEven (q * 10 ^ n) : ℚ) / 10 ^ n

/-! ## Data model (`models.py`, plus the ticker dictionaries used by
`market_maker.py`) -/

/-- Embedding of `SymbolSnapshot` from `models.py`. -/
structure SymbolSnapshot where
  symbol : String
  mid_price : ℚ
  sz_decimals : ℕ
  inventory : ℚ
  change_24h : Option ℚ := none
  notional_liquidity : Option ℚ := none
  deriving DecidableEq, Repr

/-- A ticker dictionary as consumed by `market_maker.py`
(keys `price`, `mid`, `szDecimals`; a missing key is `none`). -/
structure Ticker where
  price : Option ℚ := none
  mid : Option ℚ := none
  szDecimals : Option ℕ := none
  deriving DecidableEq, Repr

/-- The `parameters` sub-dictionary of the analysis result, as read by
`calculate_spreads` (`params["gamma"]`, `params["sigma"]`,
`params["timeHorizon"]`, `params.get("inventoryRiskWeight", 0.2)`).
`kappa` is carried but unused by the calculator. -/
structure AvellanedaParams where
  gamma : ℚ
  sigma : ℚ
  kappa : ℚ
  timeHorizon : ℚ
  inventoryRiskWeight : Option ℚ := none
  deriving DecidableEq, Repr

/-- `StrategySettings` from `market_maker.py` (environment defaults omitted;
the fields are explicit inputs here). -/
structure StrategySettings where
  portfolio_value : ℚ
  min_order_value : ℚ
  primary_markets : List String
  deriving DecidableEq, Repr

/-- The `side` argument of `calculate_position_size`. -/
inductive Side where
  | bid
  | ask
  deriving DecidableEq, Repr

/-! ## Quote calculator (`market_maker.py`) -/

/-- Embedding of `calculate_spreads` (market_maker.py lines 241-250).  Returns
`(bid_spread, ask_spread)`.  `params.get("inventoryRiskWeight", 0.2)` is
modelled with `Option.getD`; Python's
`current_inventory / max_inventory if max_inventory else 0` is the
truthiness test on `max_inventory`. -/
def calculate_spreads (params : AvellanedaParams)
    (current_inventory max_inventory : ℚ) : ℚ × ℚ :=
  let gamma := params.gamma
  let sigma := params.sigma
  let T := params.timeHorizon / 60
  let inv_weight := params.inventoryRiskWeight.getD (1/5)
  let base_spread := gamma * sigma * sigma * T
  let inventory_ratio := if max_inventory = 0 then 0 else current_inventory / max_inventory
  let inventory_skew := inv_weight * inventory_ratio
  (base_spread - inventory_skew, base_spread + inventory_skew)

/-- The clamp applied in `run_cycle` (lines 115-116):
`max(min_spread, min(spread, max_spread))`. -/
def clampSpread (min_spread max_spread s : ℚ) : ℚ :=
  max min_spread (min s max_spread)

/-- Embedding of `calculate_position_size` (market_maker.py lines 253-278). -/
def calculate_position_size (symbol : String) (price : ℚ) (max_position : ℚ)
    (current_inventory : ℚ) (settings : StrategySettings) (side : Side) : ℚ :=
  let _ := symbol
  let capital_per_market :=
    settings.portfolio_value / ((max settings.primary_markets.length 1 : ℕ) : ℚ)
  let max_notional := capital_per_market * (1/2)
  let max_qty_by_capital := max_notional / price
  if max_position ≤ 0 then 0
  else
    let max_qty := min max_qty_by_capital max_position
    let inventory_factor :=
      if side = Side.bid ∧ 0 < current_inventory then
        max (3/10) (1 - |current_inventory| / max_position)
      else if side = Side.ask ∧ current_inventory < 0 then
        max (3/10) (1 - |current_inventory| / max_position)
      else 1
    let qty := max_qty * inventory_factor
    let min_qty := settings.min_order_value / price
    if qty < min_qty then 0 else qty

/-- Embedding of `round_size` (market_maker.py lines 281-282). -/
def round_size (size : ℚ) (decimals : ℕ) : ℚ := pyRoundTo size decimals

/-- Embedding of `round_price` (market_maker.py lines 285-294).  The `symbol` argument is
unused, exactly as in the source. -/
def round_price (price : ℚ) (symbol : String) : ℚ :=
  let _ := symbol
  if 10000 ≤ price then (roundHalfEven (price / 10) : ℚ) * 10
  else if 100 ≤ price then (roundHalfEven price : ℚ)
  else if 10 ≤ price then pyRoundTo price 1
  else if 1 ≤ price then pyRoundTo price 2
  else pyRoundTo price 4

/-! ## Snapshot builder (`MarketMaker._build_snapshots`) -/

/-- Python's `ticker.get("price") or ticker.get("mid")`: falls through to
`mid` when `price` is missing or zero (falsy). -/
def effectivePrice (t : Ticker) : Option ℚ :=
  match t.price with
  | some p => if p = 0 then t.mid else some p
  | none => t.mid

/-- One iteration of the `_build_snapshots` loop body (lines 221-237):
`none` when the symbol is skipped (`continue`). -/
def snapshot_for (ticker_map : String → Option Ticker)
    (inventory_map : String → Option ℚ) (changes : String → Option ℚ)
    (symbol : String) : Option SymbolSnapshot :=
  match ticker_map symbol with
  | none => none
  | some ticker =>
    match effectivePrice ticker with
    | none => none
    | some price =>
      if price = 0 then none
      else
        some { symbol := symbol
               mid_price := price
               sz_decimals := ticker.szDecimals.getD 5
               inventory := (inventory_map symbol).getD 0
               change_24h := changes symbol }

/-- Embedding of `MarketMaker._build_snapshots` (lines 214-238), with the result of
`fetch_24h_changes` supplied as the `changes` lookup (it is `{}` i.e.
`fun _ => none` when the batched lookup fails). -/
def build_snapshots (ticker_map : String → Option Ticker)
    (inventory_map : String → Option ℚ) (changes : String → Option ℚ)
    (primary_markets : List String) : List SymbolSnapshot :=
  primary_markets.filterMap (snapshot_for ticker_map inventory_map changes)

/-! ## Analysis fallback (`MarketMaker._fetch_analysis`) -/

/-- Embedding of `MarketMaker._fetch_analysis` (lines 191-198): try the primary provider;
on an exception, re-raise when no fallback is configured, otherwise return
whatever the fallback's `fetch_analysis` produces (including its own
exception). -/
def fetch_analysis {ε α : Type} (primary : List SymbolSnapshot → Except ε α)
    (fallback : Option (List SymbolSnapshot → Except ε α))
    (snapshots : List SymbolSnapshot) : Except ε α :=
  match primary snapshots with
  | Except.ok analysis => Except.ok analysis
  | Except.error exc =>
    match fallback with
    | none => Except.error exc
    | some fb => fb snapshots

/-! ## Provider construction (`build_analysis_provider`, lines 333-348) -/

inductive AnalysisProviderKind where
  | agent
  deriving DecidableEq, Repr

inductive BuildProviderError where
  | invalidMode
  | missingApiKey
  deriving DecidableEq, Repr

/-- Python's `str.lower()` (ASCII case folding, per-character). -/
def pyLower (s : String) : String := ⟨s.data.map Char.toLower⟩

/-- Embedding of `build_analysis_provider` (lines 333-348).  The `AgentMarketClient`
constructor raises `ValueError` when the API key is empty
(`agent_market.py` lines 37-40), re-raised as a `ValueError`; both error
paths are modelled as `Except.error`. -/
def build_analysis_provider (mode : String) (api_key : String) :
    Except BuildProviderError (AnalysisProviderKind × Option AnalysisProviderKind) :=
  let m := pyLower mode
  if m = "auto" ∨ m = "agent" then
    if api_key = "" then Except.error BuildProviderError.missingApiKey
    else Except.ok (AnalysisProviderKind.agent, none)
  else Except.error BuildProviderError.invalidMode

/-! ## Cycle orchestrator (`MarketMaker.run_cycle`, lines 94-183)

Order submission is modelled by an oracle `submitOk : String → OrderSide → Bool`
deciding whether each `place_order` call succeeds or raises. -/

inductive OrderSide where
  | buy
  | sell
  deriving DecidableEq, Repr

/-- A successfully submitted order: symbol, side, quantity, limit price. -/
structure PlacedOrder where
  symbol : String
  side : OrderSide
  qty : ℚ
  limit_price : ℚ
  deriving DecidableEq, Repr

/-- The mutable loop state of `run_cycle`: the `orders_placed` and
`orders_skipped` counters plus the list of orders actually submitted. -/
structure CycleState where
  placed : ℕ
  skipped : ℕ
  submitted : List PlacedOrder
  deriving DecidableEq, Repr

/-- The body of the `for snapshot in snapshots` loop of `run_cycle`
(lines 97-176), processing one snapshot. -/
def run_symbol (dry_run : Bool) (ticker_map : String → Option Ticker)
    (params : AvellanedaParams) (max_position min_spread max_spread : ℚ)
    (settings : StrategySettings) (submitOk : String → OrderSide → Bool)
    (st : CycleState) (snapshot : SymbolSnapshot) : CycleState :=
  let symbol := snapshot.symbol
  match ticker_map symbol with
  | none => { st with skipped := st.skipped + 1 }
  | some ticker =>
    match effectivePrice ticker with
    | none => { st with skipped := st.skipped + 1 }
    | some mid_price =>
      if mid_price ≤ 0 then { st with skipped := st.skipped + 1 }
      else
        let sz_decimals := ticker.szDecimals.getD 5
        let current_inventory := snapshot.inventory
        let spreads := calculate_spreads params current_inventory max_position
        let bid_spread := clampSpread min_spread max_spread spreads.1
        let ask_spread := clampSpread min_spread max_spread spreads.2
        let bid_price := round_price (mid_price * (1 - bid_spread)) symbol
        let ask_price := round_price (mid_price * (1 + ask_spread)) symbol
        let bid_qty_raw := calculate_position_size symbol mid_price max_position
          current_inventory settings Side.bid
        let ask_qty_raw := calculate_position_size symbol mid_price max_position
          current_inventory settings Side.ask
        let bid_qty := round_size bid_qty_raw sz_decimals
        let ask_qty := round_size ask_qty_raw sz_decimals
        if bid_qty = 0 ∨ ask_qty = 0 then { st with skipped := st.skipped + 1 }
        else if dry_run then { st with placed := st.placed + 2 }
        else if submitOk symbol OrderSide.buy then
          let buyOrder : PlacedOrder := ⟨symbol, OrderSide.buy, bid_qty, bid_price⟩
          if submitOk symbol OrderSide.sell then
            { st with
              placed := st.placed + 2
              submitted := st.submitted ++
                [buyOrder, ⟨symbol, OrderSide.sell, ask_qty, ask_price⟩] }
          else
            -- the SELL call raised: caught, counters untouched, loop continues
            { st with submitted := st.submitted ++ [buyOrder] }
        else
          -- the BUY call raised: caught, nothing submitted, loop continues
          st

/-- The whole `run_cycle` quoting loop over the snapshot list. -/
def run_cycle_orders (dry_run : Bool) (ticker_map : String → Option Ticker)
    (params : AvellanedaParams) (max_position min_spread max_spread : ℚ)
    (settings : StrategySettings) (submitOk : String → OrderSide → Bool)
    (snapshots : List SymbolSnapshot) : CycleState :=
  snapshots.foldl
    (run_symbol dry_run ticker_map params max_position min_spread max_spread
      settings submitOk)
    ⟨0, 0, []⟩

/-! ## Polling protocol (`AgentMarketClient.poll_provider_message`,
agent_market.py lines 78-103) -/

/-- One chat transcript entry (keys `sender`, `message`, `timestamp`; a
missing or empty string key is modelled as `""`, both are falsy). -/
structure ChatMsg where
  sender : String
  message : String
  timestamp : String
  deriving DecidableEq, Repr

/-- Outcome of a single `fetch_chat_messages` call: a network failure
(`requests.RequestException`, caught by the poll loop), a malformed payload
(`AgentMarketError`, NOT caught by the poll loop), or a message list. -/
inductive FetchResult where
  | netError
  | protoError
  | ok (messages : List ChatMsg)
  deriving DecidableEq, Repr

/-- The filter of lines 88-90:
`msg.get("sender") == "provider" and msg.get("message")`. -/
def isProviderMsg (m : ChatMsg) : Bool :=
  m.sender = "provider" ∧ ¬ m.message = ""

/-- One comparison step of selecting the maximal-timestamp message. -/
def selectStep (best : Option ChatMsg) (m : ChatMsg) : Option ChatMsg :=
  match best with
  | none => some m
  | some b => if b.timestamp < m.timestamp then some m else some b

/-- The message selected by the stable descending sort on `timestamp`
(lines 92-96): the first element attaining the maximal timestamp. -/
def selectLatest (msgs : List ChatMsg) : Option ChatMsg :=
  msgs.foldl selectStep none

/-- The poll loop of `poll_provider_message`, with `attempt` the current
0-based attempt index, `remaining` the attempts left, and `sleeps` the number
of `time.sleep(poll_interval)` calls performed so far.  `Except.error` models
an uncaught `AgentMarketError` escaping the loop. -/
def pollFrom (fetch : ℕ → FetchResult) :
    ℕ → ℕ → ℕ → Except Unit (Option String × ℕ)
  | _, 0, sleeps => Except.ok (none, sleeps)
  | attempt, remaining + 1, sleeps =>
    let sleeps' := if attempt = 0 then sleeps else sleeps + 1
    match fetch attempt with
    | FetchResult.netError => pollFrom fetch (attempt + 1) remaining sleeps'
    | FetchResult.protoError => Except.error ()
    | FetchResult.ok messages =>
      match selectLatest (messages.filter isProviderMsg) with
      | some m => Except.ok (some m.message, sleeps')
      | none => pollFrom fetch (attempt + 1) remaining sleeps'

/-- Embedding of `poll_provider_message` (lines 78-103), returning the selected message
(or `none` after exhausting all attempts) together with the number of sleeps
performed. -/
def poll_provider_message (max_polls : ℕ) (fetch : ℕ → FetchResult) :
    Except Unit (Option String × ℕ) :=
  pollFrom fetch 0 max_polls 0

/-! ## Response parsing (`AgentMarketAnalysisProvider._parse_analysis`,
agent_market.py lines 152-173)

Strings are handled as `List Char`.  `json.loads` is external to the
repository and is abstracted as a `loads` parameter together with a `hasKey`
top-level-key membership test on its result type. -/

def nlChar : Char := Char.ofNat 10

def backtickChar : Char := Char.ofNat 96

def braceOpen : Char := Char.ofNat 123

def braceClose : Char := Char.ofNat 125

/-- Whitespace as stripped by Python's `str.strip()`. -/
def isPySpace (c : Char) : Bool :=
  c = ' ' ∨ c = Char.ofNat 9 ∨ c = Char.ofNat 10 ∨ c = Char.ofNat 13 ∨
    c = Char.ofNat 11 ∨ c = Char.ofNat 12

/-- Python's `str.strip()`. -/
def pyStrip (l : List Char) : List Char :=
  ((l.dropWhile isPySpace).reverse.dropWhile isPySpace).reverse

/-- Whether the text contains a fenced-code-block delimiter, i.e. three
consecutive backticks (Python: `"``" + "`" in s`). -/
def hasFence : List Char → Bool
  | a :: b :: c :: rest =>
    (a = backtickChar ∧ b = backtickChar ∧ c = backtickChar) ∨ hasFence (b :: c :: rest)
  | _ => false

/-- Split on newline characters, keeping a (possibly empty) final piece. -/
def splitNl : List Char → List (List Char)
  | [] => [[]]
  | c :: rest =>
    if c = nlChar then [] :: splitNl rest
    else
      match splitNl rest with
      | [] => [[c]]
      | line :: more => (c :: line) :: more

/-- Python's `str.splitlines()` restricted to `\n` line endings: like
`splitNl` but with no trailing empty line and `[]` on the empty string. -/
def pySplitlines (l : List Char) : List (List Char) :=
  match l with
  | [] => []
  | _ =>
    let parts := splitNl l
    if parts.getLast? = some [] then parts.dropLast else parts

/-- Line 155: `"\n".join(line for line in cleaned.splitlines() if "``" +
"`" not in line)`. -/
def removeFenceLines (l : List Char) : List Char :=
  List.intercalate [nlChar] ((pySplitlines l).filter (fun line => ¬ hasFence line))

/-- Lines 153-155: strip, then drop fence lines when a fence is present. -/
def cleanMessage (raw : List Char) : List Char :=
  let cleaned := pyStrip raw
  if hasFence cleaned then removeFenceLines cleaned else cleaned

/-- Python's `str.find(c)` (as `none` instead of `-1`). -/
def pyFind (c : Char) (l : List Char) : Option ℕ := l.findIdx? (· = c)

/-- Python's `str.rfind(c)` (as `none` instead of `-1`). -/
def pyRfind (c : Char) (l : List Char) : Option ℕ :=
  (l.reverse.findIdx? (· = c)).map (fun i => l.length - 1 - i)

/-- The slice `cleaned[start : end + 1]`. -/
def braceSlice (l : List Char) (s e : ℕ) : List Char :=
  (l.drop s).take (e + 1 - s)

/-- The required top-level keys of the parsed analysis (lines 163-169). -/
def requiredKeys : List String :=
  ["marketAnalysis", "parameters", "strategyRecommendations", "riskAssessment",
    "reasoning"]

/-- Failure modes of `_parse_analysis`: no brace pair found
(`AgentMarketError`), `json.loads` raised (`json.JSONDecodeError`), or a
required key is missing (`AgentMarketError`). -/
inductive ParseFail where
  | noJson
  | decodeError
  | missingKey (key : String)
  deriving DecidableEq, Repr

/-- Embedding of `_parse_analysis` (lines 152-173), parametric in the JSON parser:
`loads` is `json.loads` (`none` modelling a raised decode error) and
`hasKey a k` is Python's `k in a`. -/
def parse_analysis {J : Type} (loads : List Char → Option J)
    (hasKey : J → String → Bool) (raw : List Char) : Except ParseFail J :=
  let cleaned := cleanMessage raw
  match pyFind braceOpen cleaned, pyRfind braceClose cleaned with
  | some s, some e =>
    match loads (braceSlice cleaned s e) with
    | none => Except.error ParseFail.decodeError
    | some analysis =>
      match requiredKeys.find? (fun k => ¬ hasKey analysis k) with
      | some k => Except.error (ParseFail.missingKey k)
      | none => Except.ok analysis
  | _, _ => Except.error ParseFail.noJson

/-! ## Position flattener (`HyperliquidClient.close_positions`,
hyperliquid_api.py lines 138-191) -/

/-- A position as returned by `get_positions`: symbol and signed size. -/
structure RawPosition where
  symbol : String
  szi : ℚ
  deriving DecidableEq, Repr

inductive CloseStatus where
  | skipped
  | dryRun
  | submitted
  | error
  deriving DecidableEq, Repr

/-- One entry of the `orders` summary built by `close_positions`. -/
structure CloseOrder where
  symbol : String
  side : OrderSide
  size : ℚ
  limit_price : Option ℚ
  status : CloseStatus
  deriving DecidableEq, Repr

/-- One `exchange.order(coin, is_buy, sz, px, ..., reduce_only=True)`
invocation. -/
structure ExchangeCall where
  coin : String
  is_buy : Bool
  size : ℚ
  price : ℚ
  reduce_only : Bool
  deriving DecidableEq, Repr

/-- Python's `str.upper()` (ASCII case folding, per-character). -/
def pyUpper (s : String) : String := ⟨s.data.map Char.toUpper⟩

/-- Embedding of `_symbol_to_coin` (hyperliquid_api.py lines 29-31): uppercase, then drop
a trailing `-PERP`. -/
def symbol_to_coin (symbol : String) : String :=
  let name := pyUpper symbol
  if List.isSuffixOf "-PERP".data name.data then
    ⟨name.data.take (name.data.length - 5)⟩
  else name

/-- The body of the `for pos in positions` loop of `close_positions`
(lines 148-189) for one position with nonzero size: the summary entry plus
the exchange call made, if any.  `submitOk` decides whether the
`exchange.order` call succeeds or raises. -/
def close_one (tickers : String → Option Ticker) (dry_run : Bool)
    (slippage : ℚ) (submitOk : ExchangeCall → Bool) (pos : RawPosition) :
    CloseOrder × Option ExchangeCall :=
  let qty := pos.szi
  let symbol := pos.symbol
  let mid_price : Option ℚ := (tickers symbol).bind Ticker.price
  let skipEntry : CloseOrder × Option ExchangeCall :=
    (⟨symbol, if qty < 0 then OrderSide.buy else OrderSide.sell, |qty|, none,
      CloseStatus.skipped⟩, none)
  match mid_price with
  | none => skipEntry
  | some m =>
    if m = 0 then skipEntry
    else
      let is_buy := qty < 0
      let limit_price := m * (if is_buy then 1 + slippage else 1 - slippage)
      let side := if is_buy then OrderSide.buy else OrderSide.sell
      if dry_run then
        (⟨symbol, side, |qty|, some limit_price, CloseStatus.dryRun⟩, none)
      else
        let call : ExchangeCall := ⟨symbol_to_coin symbol, is_buy, |qty|, limit_price, true⟩
        if submitOk call then
          (⟨symbol, side, |qty|, some limit_price, CloseStatus.submitted⟩, some call)
        else
          (⟨symbol, side, |qty|, some limit_price, CloseStatus.error⟩, some call)

/-- Embedding of `close_positions` (lines 138-191): positions are first filtered to
`abs(szi) > 0`, then each produces one summary entry. -/
def close_positions (positions : List RawPosition)
    (tickers : String → Option Ticker) (dry_run : Bool) (slippage : ℚ)
    (submitOk : ExchangeCall → Bool) : List (CloseOrder × Option ExchangeCall) :=
  (positions.filter (fun p => 0 < |p.szi|)).map
    (close_one tickers dry_run slippage submitOk)

/-! ## Shared notions used by the statements below -/

/-- A poll attempt yielding no qualifying provider message: either a caught
network failure or a transcript whose provider-message filter is empty. -/
def noQual (r : FetchResult) : Prop :=
  r = FetchResult.netError ∨
    ∃ messages, r = FetchResult.ok messages ∧ messages.filter isProviderMsg = []

/-- Erase the 24h-change field of a snapshot (what `_build_snapshots`
produces when the batched change lookup failed and returned `{}`). -/
def clearChange (s : SymbolSnapshot) : SymbolSnapshot := { s with change_24h := none }

/-- A provider response wrapped in fenced-code markers with surrounding
prose (the spec's parsing example). -/
def wrappedMsg : String :=
  "Here is the analysis:\n```json\n\x7b \"marketAnalysis\": 1, \"parameters\": 2, \"strategyRecommendations\": 3, \"riskAssessment\": 4, \"reasoning\": 5 \x7d\n```\nLet me know!"

/-- The unwrapped JSON body of `wrappedMsg`. -/
def bareBody : String :=
  "\x7b \"marketAnalysis\": 1, \"parameters\": 2, \"strategyRecommendations\": 3, \"riskAssessment\": 4, \"reasoning\": 5 \x7d"

/-! ## Claim C1: fallback composition in `_fetch_analysis` -/

/-- C1 counterexample: when the primary provider fails with error `1` and the
configured fallback fails with error `2`, `_fetch_analysis` surfaces the
fallback's error `2`, which differs from the primary failure `1` — so the
surfaced error is NOT the original primary failure. -/
theorem c1_counterexample :
    fetch_analysis (fun _ => Except.error 1) (some fun _ => Except.error 2)
      ([] : List SymbolSnapshot) = (Except.error 2 : Except ℕ Unit) ∧
    (Except.error 2 : Except ℕ Unit) ≠ Except.error 1 := by
  exact ⟨rfl, by simp⟩

/-- C1 (amended): if the primary provider raises and a fallback is
configured, the fallback's `fetch_analysis` is invoked with the identical
snapshot list and its outcome — success or its OWN error — is what the
caller sees; if no fallback is configured, the primary failure propagates
immediately; if the primary succeeds its result is returned. -/
theorem c1_fallback_composition {ε α : Type}
    (primary : List SymbolSnapshot → Except ε α)
    (fallback : Option (List SymbolSnapshot → Except ε α))
    (snapshots : List SymbolSnapshot) :
    (∀ e, primary snapshots = Except.error e → fallback = none →
      fetch_analysis primary fallback snapshots = Except.error e) ∧
    (∀ e fb, primary snapshots = Except.error e → fallback = some fb →
      fetch_analysis primary fallback snapshots = fb snapshots) ∧
    (∀ a, primary snapshots = Except.ok a →
      fetch_analysis primary fallback snapshots = Except.ok a) := by
  refine ⟨fun e he hf => ?_, fun e fb he hf => ?_, fun a ha => ?_⟩ <;>
    simp [fetch_analysis, *]

/-- C1 witness: a concrete primary failure with a succeeding fallback. -/
theorem c1_witness :
    fetch_analysis (fun _ => Except.error (0 : ℕ)) (some fun _ => Except.ok (7 : ℕ))
      ([] : List SymbolSnapshot) = Except.ok 7 := by
  exact (c1_fallback_composition (fun _ => Except.error (0 : ℕ))
    (some fun _ => Except.ok (7 : ℕ)) []).2.1 0 (fun _ => Except.ok 7) rfl rfl

/-! ## Claim C2: inventory monotonicity of the clamped spreads -/

/-- C2 counterexample: with gamma=1, sigma=1, timeHorizon=60 (default
inventory risk weight 0.2), max inventory 5, clamp bounds [0, 10], moving
the inventory from 0 to 1 takes the clamped bid spread from 1 down to 24/25:
increasing long inventory NARROWS the bid spread, so it is not weakly larger
at the larger inventory as claimed. -/
theorem c2_counterexample :
    clampSpread 0 10 (calculate_spreads ⟨1, 1, 1, 60, none⟩ 1 5).1 = 24/25 ∧
    clampSpread 0 10 (calculate_spreads ⟨1, 1, 1, 60, none⟩ 0 5).1 = 1 ∧
    ¬ (clampSpread 0 10 (calculate_spreads ⟨1, 1, 1, 60, none⟩ 0 5).1 ≤
        clampSpread 0 10 (calculate_spreads ⟨1, 1, 1, 60, none⟩ 1 5).1) := by
  norm_num [clampSpread, calculate_spreads, min_def, max_def]

/-- C2 (amended): with a non-negative inventory risk weight and positive max
inventory, increasing inventory weakly NARROWS the clamped bid spread and
weakly WIDENS the clamped ask spread (each possibly held at a clamp bound) —
the reverse of the claimed directions. -/
theorem c2_spread_skew_monotone (params : AvellanedaParams)
    (i1 i2 maxInv lo hi : ℚ) (h12 : i1 ≤ i2) (hmax : 0 < maxInv)
    (hw : 0 ≤ params.inventoryRiskWeight.getD (1/5)) :
    clampSpread lo hi (calculate_spreads params i2 maxInv).1 ≤
      clampSpread lo hi (calculate_spreads params i1 maxInv).1 ∧
    clampSpread lo hi (calculate_spreads params i1 maxInv).2 ≤
      clampSpread lo hi (calculate_spreads params i2 maxInv).2 := by
  have hm : maxInv ≠ 0 := ne_of_gt hmax
  have hdiv : i1 / maxInv ≤ i2 / maxInv :=
    (div_le_div_iff_of_pos_right hmax).mpr h12
  have hskew : params.inventoryRiskWeight.getD (1/5) * (i1 / maxInv) ≤
      params.inventoryRiskWeight.getD (1/5) * (i2 / maxInv) :=
    mul_le_mul_of_nonneg_left hdiv hw
  constructor
  · simp only [calculate_spreads, if_neg hm, clampSpread]
    exact max_le_max le_rfl (min_le_min (by linarith) le_rfl)
  · simp only [calculate_spreads, if_neg hm, clampSpread]
    exact max_le_max le_rfl (min_le_min (by linarith) le_rfl)

/-- C2 witness: the monotonicity at a concrete parameter set. -/
theorem c2_witness :
    (0 : ℚ) ≤ 1 ∧ (0 : ℚ) < 5 ∧
    (clampSpread 0 10 (calculate_spreads ⟨1, 1, 1, 60, none⟩ 1 5).1 ≤
      clampSpread 0 10 (calculate_spreads ⟨1, 1, 1, 60, none⟩ 0 5).1 ∧
     clampSpread 0 10 (calculate_spreads ⟨1, 1, 1, 60, none⟩ 0 5).2 ≤
      clampSpread 0 10 (calculate_spreads ⟨1, 1, 1, 60, none⟩ 1 5).2) :=
  ⟨by norm_num, by norm_num,
    c2_spread_skew_monotone ⟨1, 1, 1, 60, none⟩ 0 1 5 0 10 (by norm_num)
      (by norm_num) (by norm_num)⟩

/-! ## Claim C3: the worked numeric example -/

/-- C3 counterexample: at the claimed inputs the ask spread is 9/500 = 0.018
and the raw ask price is 100·1.018 = 101.8 ≥ 100, so `round_price` rounds it
to the nearest INTEGER, 102 — not 101.80 as claimed. -/
theorem c3_counterexample :
    calculate_spreads ⟨1/5, 3/10, 1, 60, some (1/5)⟩ 0 5 = (9/500, 9/500) ∧
    clampSpread (1/1000) (1/20) (9/500) = 9/500 ∧
    round_price (100 * (1 + 9/500)) "BTC-PERP" = 102 ∧
    (102 : ℚ) ≠ 1018/10 := by
  refine ⟨?_, ?_, ?_, by norm_num⟩
  · norm_num [calculate_spreads]
  · norm_num [clampSpread, min_def, max_def]
  · norm_num [round_price, pyRoundTo, roundHalfEven, ratFloor]

/-- C3 (amended): for mid=100, gamma=0.2, sigma=0.3, timeHorizon=60,
inventoryRiskWeight=0.2, inventory=0, maxPosition=5, minSpread=0.001,
maxSpread=0.05, the pipeline yields base spread 0.018, bid spread = ask
spread = 0.018 (inside the clamp bounds), rounded bid price 98.2 (the raw
bid 98.2 lands in the 1-decimal tier, with the same value as the claimed
98.20) and rounded ask price 102 (the raw ask 101.8 lands in the
nearest-integer tier, not 101.80). -/
theorem c3_pipeline_example :
    calculate_spreads ⟨1/5, 3/10, 1, 60, some (1/5)⟩ 0 5 = (9/500, 9/500) ∧
    clampSpread (1/1000) (1/20) (9/500) = 9/500 ∧
    round_price (100 * (1 - 9/500)) "BTC-PERP" = 491/5 ∧
    round_price (100 * (1 + 9/500)) "BTC-PERP" = 102 := by
  refine ⟨?_, ?_, ?_, ?_⟩
  · norm_num [calculate_spreads]
  · norm_num [clampSpread, min_def, max_def]
  · norm_num [round_price, pyRoundTo, roundHalfEven, ratFloor]
  · norm_num [round_price, pyRoundTo, roundHalfEven, ratFloor]

/-! ## Claim C9: provider-mode selection and the empty fallback slot -/

/-- C9: any mode whose lowercase form is neither "auto" nor "agent" is
rejected with an error, and whenever the builder succeeds it returns the
agent provider paired with an empty (`none`) fallback slot — the
orchestrator is never configured with a distinct fallback provider. -/
theorem c9_provider_modes (mode api_key : String) :
    (pyLower mode ≠ "auto" ∧ pyLower mode ≠ "agent" →
      build_analysis_provider mode api_key =
        Except.error BuildProviderError.invalidMode) ∧
    (∀ p fb, build_analysis_provider mode api_key = Except.ok (p, fb) →
      p = AnalysisProviderKind.agent ∧ fb = none) := by
  constructor
  · intro h
    simp [build_analysis_provider, h.1, h.2]
  · intro p fb h
    unfold build_analysis_provider at h
    by_cases hm : pyLower mode = "auto" ∨ pyLower mode = "agent"
    · rw [if_pos hm] at h
      by_cases hk : api_key = ""
      · rw [if_pos hk] at h; exact absurd h (by simp)
      · rw [if_neg hk] at h
        injection h with h2
        injection h2 with hp hf
        exact ⟨hp.symm, hf.symm⟩
    · rw [if_neg hm] at h; exact absurd h (by simp)

/-- C9 witness: the rejected mode "http" and the accepted mode "agent". -/
theorem c9_witness :
    build_analysis_provider "http" "key" =
      Except.error BuildProviderError.invalidMode ∧
    (AnalysisProviderKind.agent = AnalysisProviderKind.agent ∧
      (none : Option AnalysisProviderKind) = none) :=
  ⟨(c9_provider_modes "http" "key").1 (by decide),
    (c9_provider_modes "agent" "key").2 AnalysisProviderKind.agent none rfl⟩

/-! ## Claim C4: the snapshot builder -/

/-- Properties of one snapshot-builder step. -/
lemma snapshot_for_some_props (tm : String → Option Ticker)
    (im : String → Option ℚ) (ch : String → Option ℚ) (s : String)
    (snap : SymbolSnapshot) (h : snapshot_for tm im ch s = some snap) :
    snap.symbol = s ∧ snap.mid_price ≠ 0 ∧
      (im s = none → snap.inventory = 0) ∧ tm s ≠ none := by
  cases htm : tm s with
  | none => simp [snapshot_for, htm] at h
  | some ticker =>
    cases heff : effectivePrice ticker with
    | none => simp [snapshot_for, htm, heff] at h
    | some price =>
      by_cases hz : price = 0
      · simp [snapshot_for, htm, heff, hz] at h
      · simp only [snapshot_for, htm, heff] at h
        rw [if_neg hz] at h
        injection h with h2
        subst h2
        refine ⟨rfl, hz, fun hi => ?_, by simp [htm]⟩
        simp [hi]

/-- Replacing the change lookup by the empty (failed) lookup only clears the
`change_24h` field of each step. -/
lemma snapshot_for_changes_failed (tm : String → Option Ticker)
    (im : String → Option ℚ) (ch : String → Option ℚ) (s : String) :
    snapshot_for tm im (fun _ => none) s =
      (snapshot_for tm im ch s).map clearChange := by
  cases htm : tm s with
  | none => simp [snapshot_for, htm]
  | some ticker =>
    cases heff : effectivePrice ticker with
    | none => simp [snapshot_for, htm, heff]
    | some price =>
      by_cases hz : price = 0 <;> simp [snapshot_for, htm, heff, hz, clearChange]

/-- C4 (amended): the snapshot builder emits at most one snapshot per
configured symbol, in configured order (the emitted symbols form a sublist
of the configured list); a symbol absent from the ticker mapping is skipped,
as is one whose effective price is missing or ZERO — but a NEGATIVE price is
not filtered, so an emitted snapshot's mid price is only guaranteed nonzero,
not positive; inventory defaults to 0 for symbols absent from the inventory
mapping; and a failed 24h-change lookup yields the same snapshots with
`change_24h` absent. -/
theorem c4_snapshot_builder (tm : String → Option Ticker)
    (im : String → Option ℚ) (ch : String → Option ℚ) (ms : List String) :
    (∀ snap ∈ build_snapshots tm im ch ms,
      snap.mid_price ≠ 0 ∧ (im snap.symbol = none → snap.inventory = 0) ∧
        tm snap.symbol ≠ none) ∧
    ((build_snapshots tm im ch ms).map SymbolSnapshot.symbol).Sublist ms ∧
    build_snapshots tm im (fun _ => none) ms =
      (build_snapshots tm im ch ms).map clearChange := by
  refine ⟨?_, ?_, ?_⟩
  · intro snap hmem
    obtain ⟨s, _, hs⟩ := List.mem_filterMap.mp hmem
    obtain ⟨hsym, hmid, hinv, htm⟩ := snapshot_for_some_props tm im ch s snap hs
    subst hsym
    exact ⟨hmid, hinv, htm⟩
  · induction ms with
    | nil => simp [build_snapshots]
    | cons s rest ih =>
      cases hs : snapshot_for tm im ch s with
      | none =>
        simp only [build_snapshots, List.filterMap_cons, hs]
        exact ih.trans (List.sublist_cons_self s rest)
      | some snap =>
        have hsym := (snapshot_for_some_props tm im ch s snap hs).1
        simp only [build_snapshots, List.filterMap_cons, hs, List.map_cons, hsym]
        exact List.Sublist.cons₂ s ih
  · unfold build_snapshots
    rw [List.map_filterMap]
    congr 1
    funext s
    exact snapshot_for_changes_failed tm im ch s

/-- C4 counterexample: a configured symbol whose ticker price is −1 is NOT
skipped — a snapshot with negative mid price is produced, refuting "every
produced snapshot has mid price > 0". -/
theorem c4_counterexample :
    build_snapshots
      (fun _ => some ⟨some (-1), none, none⟩)
      (fun _ => none) (fun _ => none) ["BTC-PERP"] =
      [{ symbol := "BTC-PERP", mid_price := -1, sz_decimals := 5,
         inventory := 0, change_24h := none, notional_liquidity := none }] ∧
    ¬ (0 : ℚ) < -1 := by
  constructor
  · norm_num [build_snapshots, snapshot_for, effectivePrice,
      List.filterMap_cons, List.filterMap_nil]
  · norm_num

/-- C4 witness: the amended theorem at a concrete ticker/inventory map. -/
theorem c4_witness :
    ({ symbol := "ETH-PERP", mid_price := 2, sz_decimals := 3, inventory := 0,
       change_24h := none, notional_liquidity := none } : SymbolSnapshot).mid_price ≠ 0 := by
  have h := (c4_snapshot_builder
    (fun _ => some ⟨some 2, none, some 3⟩)
    (fun _ => none) (fun _ => none) ["ETH-PERP"]).1
    { symbol := "ETH-PERP", mid_price := 2, sz_decimals := 3, inventory := 0,
      change_24h := none, notional_liquidity := none }
    (by norm_num [build_snapshots, snapshot_for, effectivePrice])
  exact h.1

/-! ## Claim C5: minimum-order-value cutoff and the skip path -/

/-- C5 counterexample: with portfolio 20.4, one market, minimum order value
10, price 3, max position 5 and flat inventory, `calculate_position_size`
returns 3.4 (its notional 10.2 passes the pre-rounding check), but rounding
to 0 size-decimals gives 3, whose notional 9 is BELOW the minimum order
value and is not zero — so the claimed "rounded quantity with notional below
the minimum yields size 0" fails. -/
theorem c5_counterexample :
    calculate_position_size "BTC-PERP" 3 5 0 ⟨102/5, 10, ["BTC-PERP"]⟩ Side.bid
      = 17/5 ∧
    round_size (17/5) 0 = 3 ∧
    (3 : ℚ) * 3 < 10 ∧ (3 : ℚ) ≠ 0 := by
  refine ⟨?_, ?_, by norm_num, by norm_num⟩
  · norm_num [calculate_position_size, min_def, max_def]
  · norm_num [round_size, pyRoundTo, roundHalfEven, ratFloor]

/-- C5 (amended): the minimum-order-value cutoff is applied to the
PRE-rounding quantity — any nonzero quantity returned by
`calculate_position_size` has notional at least the configured minimum, but
the rounding to size-decimals happens afterwards in the orchestrator and may
push the notional below the minimum without zeroing the size.  Whenever
either side's final rounded size is 0, `run_cycle` counts the symbol as
skipped and submits no order for it. -/
theorem c5_min_order_cutoff :
    (∀ (symbol : String) (price max_position current_inventory : ℚ)
      (settings : StrategySettings) (side : Side), 0 < price →
      calculate_position_size symbol price max_position current_inventory
          settings side = 0 ∨
        settings.min_order_value ≤
          calculate_position_size symbol price max_position current_inventory
            settings side * price) ∧
    (∀ (dry_run : Bool) (tm : String → Option Ticker)
      (params : AvellanedaParams) (max_position min_spread max_spread : ℚ)
      (settings : StrategySettings) (submitOk : String → OrderSide → Bool)
      (st : CycleState) (snapshot : SymbolSnapshot) (ticker : Ticker) (p : ℚ),
      tm snapshot.symbol = some ticker →
      effectivePrice ticker = some p → 0 < p →
      (round_size (calculate_position_size snapshot.symbol p max_position
          snapshot.inventory settings Side.bid) (ticker.szDecimals.getD 5) = 0 ∨
       round_size (calculate_position_size snapshot.symbol p max_position
          snapshot.inventory settings Side.ask) (ticker.szDecimals.getD 5) = 0) →
      run_symbol dry_run tm params max_position min_spread max_spread settings
          submitOk st snapshot =
        { st with skipped := st.skipped + 1 }) := by
  constructor
  · intro symbol price max_position current_inventory settings side hp
    unfold calculate_position_size
    by_cases h1 : max_position ≤ 0
    · left; rw [if_pos h1]
    · rw [if_neg h1]
      set qty := (min (settings.portfolio_value /
        ((max settings.primary_markets.length 1 : ℕ) : ℚ) * (1/2) / price)
        max_position) *
        (if side = Side.bid ∧ 0 < current_inventory then
          max (3/10) (1 - |current_inventory| / max_position)
        else if side = Side.ask ∧ current_inventory < 0 then
          max (3/10) (1 - |current_inventory| / max_position)
        else 1) with hqty
      by_cases h2 : qty < settings.min_order_value / price
      · left; rw [if_pos h2]
      · right
        rw [if_neg h2]
        have h3 : settings.min_order_value / price ≤ qty := le_of_not_lt h2
        calc settings.min_order_value
            = settings.min_order_value / price * price := by
              field_simp
          _ ≤ qty * price := by
              exact mul_le_mul_of_nonneg_right h3 (le_of_lt hp)
  · intro dry_run tm params max_position min_spread max_spread settings
      submitOk st snapshot ticker p htm heff hp hq
    simp only [run_symbol, htm, heff]
    rw [if_neg (not_le.mpr hp), if_pos hq]

/-- C5 witness: a concrete symbol whose pre-rounding quantity is below the
cutoff (so the side yields 0) and which `run_cycle` therefore skips. -/
theorem c5_witness :
    run_symbol true
        (fun _ => some ⟨some 1, none, some 5⟩)
        ⟨1, 1, 1, 60, none⟩ 5 0 1 ⟨20, 1000000, ["A-PERP"]⟩ (fun _ _ => true)
        ⟨0, 0, []⟩
        { symbol := "A-PERP", mid_price := 1, sz_decimals := 5, inventory := 0,
          change_24h := none, notional_liquidity := none } =
      { placed := 0, skipped := 0 + 1, submitted := [] } ∧
    ((1 : ℚ) > 0 ∧
      (calculate_position_size "X" 2 5 0 ⟨20, 10, ["X"]⟩ Side.bid = 0 ∨
        (10 : ℚ) ≤ calculate_position_size "X" 2 5 0 ⟨20, 10, ["X"]⟩ Side.bid * 2)) := by
  constructor
  · exact c5_min_order_cutoff.2 true
      (fun _ => some ⟨some 1, none, some 5⟩)
      ⟨1, 1, 1, 60, none⟩ 5 0 1 ⟨20, 1000000, ["A-PERP"]⟩ (fun _ _ => true)
      ⟨0, 0, []⟩
      { symbol := "A-PERP", mid_price := 1, sz_decimals := 5, inventory := 0,
        change_24h := none, notional_liquidity := none }
      ⟨some 1, none, some 5⟩ 1
      (by norm_num) (by norm_num [effectivePrice]) (by norm_num)
      (Or.inl (by norm_num [round_size, pyRoundTo, roundHalfEven, ratFloor,
        calculate_position_size, min_def, max_def]))
  · exact ⟨by norm_num,
      c5_min_order_cutoff.1 "X" 2 5 0 ⟨20, 10, ["X"]⟩ Side.bid (by norm_num)⟩

/-! ## Claim C10: order-submission failures and the placed/skipped counters -/

/-- C10: in live execution, for a symbol that reaches the submission stage
(ticker present, positive price, both rounded quantities nonzero), if either
`place_order` call raises, the exception is caught and neither the placed
nor the skipped counter changes; the placed counter increases by 2 exactly
when both the buy and the sell submission succeed. -/
theorem c10_submission_failure_counting (tm : String → Option Ticker)
    (params : AvellanedaParams) (max_position min_spread max_spread : ℚ)
    (settings : StrategySettings) (submitOk : String → OrderSide → Bool)
    (st : CycleState) (snapshot : SymbolSnapshot) (ticker : Ticker) (p : ℚ)
    (htm : tm snapshot.symbol = some ticker)
    (heff : effectivePrice ticker = some p) (hp : 0 < p)
    (hbid : round_size (calculate_position_size snapshot.symbol p max_position
      snapshot.inventory settings Side.bid) (ticker.szDecimals.getD 5) ≠ 0)
    (hask : round_size (calculate_position_size snapshot.symbol p max_position
      snapshot.inventory settings Side.ask) (ticker.szDecimals.getD 5) ≠ 0) :
    (¬ (submitOk snapshot.symbol OrderSide.buy = true ∧
        submitOk snapshot.symbol OrderSide.sell = true) →
      (run_symbol false tm params max_position min_spread max_spread settings
        submitOk st snapshot).placed = st.placed ∧
      (run_symbol false tm params max_position min_spread max_spread settings
        submitOk st snapshot).skipped = st.skipped) ∧
    (submitOk snapshot.symbol OrderSide.buy = true →
      submitOk snapshot.symbol OrderSide.sell = true →
      (run_symbol false tm params max_position min_spread max_spread settings
        submitOk st snapshot).placed = st.placed + 2 ∧
      (run_symbol false tm params max_position min_spread max_spread settings
        submitOk st snapshot).skipped = st.skipped) := by
  simp only [run_symbol, htm, heff]
  rw [if_neg (not_le.mpr hp), if_neg (not_or.mpr ⟨hbid, hask⟩),
    if_neg Bool.false_ne_true]
  constructor
  · intro hnot
    by_cases hb : submitOk snapshot.symbol OrderSide.buy = true
    · have hs : ¬ submitOk snapshot.symbol OrderSide.sell = true :=
        fun hs => hnot ⟨hb, hs⟩
      simp [hb, hs]
    · simp [hb]
  · intro hb hs
    simp [hb, hs]

/-- C10 witness: one snapshot whose submissions all raise — the cycle ends
with placed = 0 and skipped = 0, so placed + skipped is less than the number
of snapshots processed. -/
theorem c10_witness :
    (run_cycle_orders false (fun _ => some ⟨some 1, none, some 5⟩)
        ⟨1, 1, 1, 60, none⟩ 5 0 1 ⟨20, 1, ["A-PERP"]⟩ (fun _ _ => false)
        [{ symbol := "A-PERP", mid_price := 1, sz_decimals := 5,
           inventory := 0, change_24h := none,
           notional_liquidity := none }]).placed = 0 ∧
    (run_cycle_orders false (fun _ => some ⟨some 1, none, some 5⟩)
        ⟨1, 1, 1, 60, none⟩ 5 0 1 ⟨20, 1, ["A-PERP"]⟩ (fun _ _ => false)
        [{ symbol := "A-PERP", mid_price := 1, sz_decimals := 5,
           inventory := 0, change_24h := none,
           notional_liquidity := none }]).skipped = 0 ∧
    0 + 0 < 1 := by
  have h := (c10_submission_failure_counting
    (fun _ => some ⟨some 1, none, some 5⟩) ⟨1, 1, 1, 60, none⟩ 5 0 1
    ⟨20, 1, ["A-PERP"]⟩ (fun _ _ => false) ⟨0, 0, []⟩
    { symbol := "A-PERP", mid_price := 1, sz_decimals := 5, inventory := 0,
      change_24h := none, notional_liquidity := none }
    ⟨some 1, none, some 5⟩ 1 rfl (by norm_num [effectivePrice]) (by norm_num)
    (by norm_num [round_size, pyRoundTo, roundHalfEven, ratFloor,
      calculate_position_size, min_def, max_def])
    (by norm_num [round_size, pyRoundTo, roundHalfEven, ratFloor,
      calculate_position_size, min_def, max_def])).1 (by simp)
  exact ⟨h.1, h.2, by norm_num⟩

/-! ## Claim C8: the position flattener -/

/-- C8: for every position with nonzero signed quantity, the flattener
produces an order sized at the absolute quantity; against a short position
it is a buy at limit mid·(1+slippage), against a long position a sell at
limit mid·(1−slippage); when no (nonzero) current price is available a
skipped entry is recorded; in live mode the exchange call is made
reduce-only and each order's success or error is captured independently;
and the concrete position −2.5 with slippage 0.02 and mid 100 produces a
reduce-only buy at limit price 102. -/
theorem c8_position_flattener (tickers : String → Option Ticker)
    (slippage : ℚ) (submitOk : ExchangeCall → Bool) (pos : RawPosition)
    (hqty : pos.szi ≠ 0) :
    (((tickers pos.symbol).bind Ticker.price = none ∨
      (tickers pos.symbol).bind Ticker.price = some 0) →
      close_one tickers false slippage submitOk pos =
        ({ symbol := pos.symbol
           side := if pos.szi < 0 then OrderSide.buy else OrderSide.sell
           size := |pos.szi|
           limit_price := none
           status := CloseStatus.skipped }, none)) ∧
    (∀ m, (tickers pos.symbol).bind Ticker.price = some m → m ≠ 0 →
      ((close_one tickers false slippage submitOk pos).1.size = |pos.szi| ∧
       (close_one tickers false slippage submitOk pos).1.symbol = pos.symbol) ∧
      (pos.szi < 0 →
        (close_one tickers false slippage submitOk pos).1.side = OrderSide.buy ∧
        (close_one tickers false slippage submitOk pos).1.limit_price =
          some (m * (1 + slippage))) ∧
      (0 < pos.szi →
        (close_one tickers false slippage submitOk pos).1.side = OrderSide.sell ∧
        (close_one tickers false slippage submitOk pos).1.limit_price =
          some (m * (1 - slippage))) ∧
      (∃ call, (close_one tickers false slippage submitOk pos).2 = some call ∧
        call.reduce_only = true ∧ call.size = |pos.szi| ∧
        (submitOk call = true →
          (close_one tickers false slippage submitOk pos).1.status =
            CloseStatus.submitted) ∧
        (submitOk call = false →
          (close_one tickers false slippage submitOk pos).1.status =
            CloseStatus.error))) ∧
    close_one (fun _ => some ⟨some 100, none, none⟩) false (1/50)
        (fun _ => true) ⟨"ETH-PERP", -5/2⟩ =
      ({ symbol := "ETH-PERP", side := OrderSide.buy, size := 5/2,
         limit_price := some 102, status := CloseStatus.submitted },
        some ⟨"ETH", true, 5/2, 102, true⟩) := by
  refine ⟨?_, ?_, ?_⟩
  · rintro (hnone | hzero)
    · simp [close_one, hnone]
    · simp [close_one, hzero]
  · intro m hm hmz
    by_cases hneg : pos.szi < 0
    · have hd : decide (pos.szi < 0) = true := decide_eq_true hneg
      have hclose : close_one tickers false slippage submitOk pos =
          ({ symbol := pos.symbol, side := OrderSide.buy, size := |pos.szi|,
             limit_price := some (m * (1 + slippage)),
             status := if submitOk ⟨symbol_to_coin pos.symbol, true, |pos.szi|,
                 m * (1 + slippage), true⟩ = true
               then CloseStatus.submitted else CloseStatus.error },
            some ⟨symbol_to_coin pos.symbol, true, |pos.szi|,
              m * (1 + slippage), true⟩) := by
        simp only [close_one, hm]
        rw [if_neg hmz]
        simp [hneg, hd]
        by_cases hcall : submitOk ⟨symbol_to_coin pos.symbol, true, |pos.szi|,
            m * (1 + slippage), true⟩ = true
        · simp [hcall]
        · simp [hcall]
      rw [hclose]
      refine ⟨⟨rfl, rfl⟩, fun _ => ⟨rfl, rfl⟩,
        fun hpos => absurd hneg (not_lt.mpr (le_of_lt hpos)), ?_⟩
      refine ⟨_, rfl, rfl, rfl, fun hok => ?_, fun hko => ?_⟩
      · simp [hok]
      · simp [hko]
    · have hd : decide (pos.szi < 0) = false := decide_eq_false hneg
      have hclose : close_one tickers false slippage submitOk pos =
          ({ symbol := pos.symbol, side := OrderSide.sell, size := |pos.szi|,
             limit_price := some (m * (1 - slippage)),
             status := if submitOk ⟨symbol_to_coin pos.symbol, false, |pos.szi|,
                 m * (1 - slippage), true⟩ = true
               then CloseStatus.submitted else CloseStatus.error },
            some ⟨symbol_to_coin pos.symbol, false, |pos.szi|,
              m * (1 - slippage), true⟩) := by
        simp only [close_one, hm]
        rw [if_neg hmz]
        simp [hneg, hd]
        by_cases hcall : submitOk ⟨symbol_to_coin pos.symbol, false, |pos.szi|,
            m * (1 - slippage), true⟩ = true
        · simp [hcall]
        · simp [hcall]
      rw [hclose]
      refine ⟨⟨rfl, rfl⟩, fun h => absurd h hneg, fun _ => ⟨rfl, rfl⟩, ?_⟩
      refine ⟨_, rfl, rfl, rfl, fun hok => ?_, fun hko => ?_⟩
      · simp [hok]
      · simp [hko]
  · have hcoin : symbol_to_coin "ETH-PERP" = "ETH" := by decide
    norm_num [close_one, hcoin]

/-- C8 witness: the flattener applied to concrete short and long
positions. -/
theorem c8_witness :
    close_one (fun _ => some ⟨some 100, none, none⟩) false (1/50)
        (fun _ => true) ⟨"ETH-PERP", -5/2⟩ =
      ({ symbol := "ETH-PERP", side := OrderSide.buy, size := 5/2,
         limit_price := some 102, status := CloseStatus.submitted },
        some ⟨"ETH", true, 5/2, 102, true⟩) := by
  exact (c8_position_flattener (fun _ => some ⟨some 100, none, none⟩) (1/50)
    (fun _ => true) ⟨"ETH-PERP", -5/2⟩ (by norm_num)).2.2

/-! ## Claim C6: the bounded polling protocol -/

/-- Folding `selectStep` from a `some` base yields an element (the base or a
list member) whose timestamp dominates the base and every list member. -/
lemma selectStep_go (l : List ChatMsg) :
    ∀ b : ChatMsg, ∃ m, l.foldl selectStep (some b) = some m ∧
      (m = b ∨ m ∈ l) ∧ b.timestamp ≤ m.timestamp ∧
      ∀ x ∈ l, x.timestamp ≤ m.timestamp := by
  induction l with
  | nil => exact fun b => ⟨b, rfl, Or.inl rfl, le_refl _, by simp⟩
  | cons x l ih =>
    intro b
    by_cases h : b.timestamp < x.timestamp
    · obtain ⟨m, hm, hmem, hle, hall⟩ := ih x
      refine ⟨m, ?_, ?_, le_of_lt (lt_of_lt_of_le h hle), ?_⟩
      · simpa [selectStep, h] using hm
      · rcases hmem with hmx | hml
        · exact Or.inr (hmx ▸ List.mem_cons_self x l)
        · exact Or.inr (List.mem_cons_of_mem x hml)
      · intro y hy
        rcases List.mem_cons.mp hy with hyx | hyl
        · exact hyx ▸ hle
        · exact hall y hyl
    · obtain ⟨m, hm, hmem, hle, hall⟩ := ih b
      refine ⟨m, ?_, ?_, hle, ?_⟩
      · simpa [selectStep, h] using hm
      · rcases hmem with hmb | hml
        · exact Or.inl hmb
        · exact Or.inr (List.mem_cons_of_mem x hml)
      · intro y hy
        rcases List.mem_cons.mp hy with hyx | hyl
        · exact hyx ▸ le_trans (not_lt.mp h) hle
        · exact hall y hyl

/-- A nonempty list has a selected message dominating all timestamps. -/
lemma selectLatest_spec (l : List ChatMsg) (hl : l ≠ []) :
    ∃ m, selectLatest l = some m ∧ m ∈ l ∧
      ∀ x ∈ l, x.timestamp ≤ m.timestamp := by
  cases l with
  | nil => exact absurd rfl hl
  | cons x l =>
    obtain ⟨m, hm, hmem, hbase, hall⟩ := selectStep_go l x
    refine ⟨m, ?_, ?_, ?_⟩
    · simpa [selectLatest, selectStep] using hm
    · rcases hmem with hmx | hml
      · exact hmx ▸ List.mem_cons_self x l
      · exact List.mem_cons_of_mem x hml
    · intro y hy
      rcases List.mem_cons.mp hy with hyx | hyl
      · exact hyx ▸ hbase
      · exact hall y hyl

/-- An attempt with no qualifying message makes the poll loop move to the
next attempt, incrementing the sleep count unless this was attempt 0. -/
lemma pollFrom_noqual_step (fetch : ℕ → FetchResult) (attempt s r : ℕ)
    (h : noQual (fetch attempt)) :
    pollFrom fetch attempt (r + 1) s =
      pollFrom fetch (attempt + 1) r (if attempt = 0 then s else s + 1) := by
  rcases h with hnet | ⟨msgs, hok, hfil⟩
  · simp only [pollFrom, hnet]
  · simp only [pollFrom, hok, hfil, selectLatest, List.foldl_nil]

/-- Skipping `k` consecutive no-qualifying attempts (all at index ≥ 1). -/
lemma pollFrom_skip (fetch : ℕ → FetchResult) :
    ∀ (k a s rest : ℕ), 1 ≤ a →
      (∀ i, a ≤ i → i < a + k → noQual (fetch i)) →
      pollFrom fetch a (k + rest) s = pollFrom fetch (a + k) rest (s + k) := by
  intro k
  induction k with
  | zero => intro a s rest _ _; simp
  | succ k ih =>
    intro a s rest ha hq
    have h0 : noQual (fetch a) := hq a le_rfl (by omega)
    have hsplit : k + 1 + rest = (k + rest) + 1 := by omega
    rw [hsplit, pollFrom_noqual_step fetch a s (k + rest) h0,
      if_neg (by omega : ¬ a = 0),
      ih (a + 1) (s + 1) rest (by omega)
        (fun i h1 h2 => hq i (by omega) (by omega))]
    have e1 : a + 1 + k = a + (k + 1) := by omega
    have e2 : s + 1 + k = s + (k + 1) := by omega
    rw [e1, e2]

/-- Exhausting `r` no-qualifying attempts (all at index ≥ 1) returns no
message, after `r` further sleeps. -/
lemma pollFrom_exhausted (fetch : ℕ → FetchResult) (r a s : ℕ) (ha : 1 ≤ a)
    (hq : ∀ i, a ≤ i → i < a + r → noQual (fetch i)) :
    pollFrom fetch a r s = Except.ok (none, s + r) :=
  calc pollFrom fetch a r s
      = pollFrom fetch a (r + 0) s := by rw [Nat.add_zero]
    _ = pollFrom fetch (a + r) 0 (s + r) := pollFrom_skip fetch r a s 0 ha hq
    _ = Except.ok (none, s + r) := rfl

/-- An attempt that fetches a transcript with a selected qualifying message
ends the poll loop with that message. -/
lemma pollFrom_success_step (fetch : ℕ → FetchResult) (a s r : ℕ)
    (msgs : List ChatMsg) (m : ChatMsg) (hok : fetch a = FetchResult.ok msgs)
    (hsel : selectLatest (msgs.filter isProviderMsg) = some m) :
    pollFrom fetch a (r + 1) s =
      Except.ok (some m.message, if a = 0 then s else s + 1) := by
  simp only [pollFrom, hok, hsel]

/-- C6: if the first qualifying provider message appears on attempt N
(1-based, N ≤ max_polls) after N−1 attempts with none (network failures
counting as none), `poll_provider_message` returns the qualifying message
with the greatest timestamp of that attempt, having slept N−1 times (never
before the first attempt); if no attempt yields a qualifying message, it
returns no result after max_polls−1 sleeps. -/
theorem c6_poll_protocol (max_polls : ℕ) (fetch : ℕ → FetchResult) :
    (∀ N msgs, 1 ≤ N → N ≤ max_polls →
      (∀ i, i < N - 1 → noQual (fetch i)) →
      fetch (N - 1) = FetchResult.ok msgs →
      msgs.filter isProviderMsg ≠ [] →
      ∃ m, selectLatest (msgs.filter isProviderMsg) = some m ∧
        m ∈ msgs.filter isProviderMsg ∧
        (∀ x ∈ msgs.filter isProviderMsg, x.timestamp ≤ m.timestamp) ∧
        poll_provider_message max_polls fetch =
          Except.ok (some m.message, N - 1)) ∧
    ((∀ i, i < max_polls → noQual (fetch i)) →
      poll_provider_message max_polls fetch =
        Except.ok (none, max_polls - 1)) := by
  constructor
  · intro N msgs hN hNle hbefore hok hne
    obtain ⟨m, hsel, hmem, hall⟩ := selectLatest_spec _ hne
    refine ⟨m, hsel, hmem, hall, ?_⟩
    unfold poll_provider_message
    obtain ⟨r, hr⟩ : ∃ r, max_polls = r + 1 := ⟨max_polls - 1, by omega⟩
    by_cases h1 : N = 1
    · subst h1
      rw [hr, pollFrom_success_step fetch 0 0 r msgs m hok hsel]
      simp
    · have h0 : noQual (fetch 0) := hbefore 0 (by omega)
      rw [hr, pollFrom_noqual_step fetch 0 0 r h0, if_pos rfl]
      have hrsplit : r = (N - 2) + (r - (N - 2)) := by omega
      rw [hrsplit, pollFrom_skip fetch (N - 2) 1 0 (r - (N - 2)) (by omega)
        (fun i hi1 hi2 => hbefore i (by omega))]
      have e1 : 1 + (N - 2) = N - 1 := by omega
      have e2 : (0 : ℕ) + (N - 2) = N - 2 := by omega
      rw [e1, e2]
      obtain ⟨r2, hr2⟩ : ∃ r2, r - (N - 2) = r2 + 1 := ⟨r - (N - 2) - 1, by omega⟩
      rw [hr2, pollFrom_success_step fetch (N - 1) (N - 2) r2 msgs m hok hsel,
        if_neg (by omega : ¬ N - 1 = 0)]
      have e3 : N - 2 + 1 = N - 1 := by omega
      rw [e3]
  · intro hq
    unfold poll_provider_message
    cases max_polls with
    | zero => rfl
    | succ r =>
      have h0 : noQual (fetch 0) := hq 0 (by omega)
      rw [pollFrom_noqual_step fetch 0 0 r h0, if_pos rfl]
      by_cases hr0 : r = 0
      · subst hr0; rfl
      · rw [pollFrom_exhausted fetch r 1 0 (by omega)
          (fun i h1 h2 => hq i (by omega))]
        simp

/-- C6 witness: a network failure on attempt 1, a non-qualifying transcript
on attempt 2, and two qualifying messages on attempt 3 — the message with
the greatest timestamp is returned after exactly 2 sleeps; a provider that
always fails yields no result. -/
theorem c6_witness :
    poll_provider_message 5
        (fun i => if i = 0 then FetchResult.netError
          else if i = 1 then FetchResult.ok [⟨"requester", "hello", "t9"⟩]
          else FetchResult.ok [⟨"provider", "A", "t1"⟩, ⟨"provider", "B", "t3"⟩,
            ⟨"provider", "C", "t2"⟩]) =
      Except.ok (some "B", 2) ∧
    poll_provider_message 2 (fun _ => FetchResult.netError) =
      Except.ok (none, 1) := by
  constructor
  · obtain ⟨m, hsel, _, _, hpoll⟩ := (c6_poll_protocol 5
      (fun i => if i = 0 then FetchResult.netError
        else if i = 1 then FetchResult.ok [⟨"requester", "hello", "t9"⟩]
        else FetchResult.ok [⟨"provider", "A", "t1"⟩, ⟨"provider", "B", "t3"⟩,
          ⟨"provider", "C", "t2"⟩])).1 3
      [⟨"provider", "A", "t1"⟩, ⟨"provider", "B", "t3"⟩, ⟨"provider", "C", "t2"⟩]
      (by omega) (by omega)
      (by
        intro i hi
        interval_cases i
        · exact Or.inl rfl
        · exact Or.inr ⟨[⟨"requester", "hello", "t9"⟩], rfl, by decide⟩)
      rfl (by decide)
    have hm : m = ⟨"provider", "B", "t3"⟩ := by
      have hlt13 : ("t1" : String) < "t3" := by
        simp
        decide
      have hlt32 : ¬ ("t3" : String) < "t2" := by
        simp
        decide
      have hfil : List.filter isProviderMsg [⟨"provider", "A", "t1"⟩,
          ⟨"provider", "B", "t3"⟩, ⟨"provider", "C", "t2"⟩] =
          ([⟨"provider", "A", "t1"⟩, ⟨"provider", "B", "t3"⟩,
            ⟨"provider", "C", "t2"⟩] : List ChatMsg) := by decide
      have hsel2 : selectLatest
          (List.filter isProviderMsg [⟨"provider", "A", "t1"⟩,
            ⟨"provider", "B", "t3"⟩, ⟨"provider", "C", "t2"⟩]) =
          some ⟨"provider", "B", "t3"⟩ := by
        rw [hfil]
        show List.foldl selectStep none _ = _
        rw [List.foldl_cons, List.foldl_cons, List.foldl_cons, List.foldl_nil]
        have s1 : selectStep none ⟨"provider", "A", "t1"⟩ =
            some ⟨"provider", "A", "t1"⟩ := rfl
        have s2 : selectStep (some ⟨"provider", "A", "t1"⟩)
            ⟨"provider", "B", "t3"⟩ = some ⟨"provider", "B", "t3"⟩ := by
          simp only [selectStep]
          rw [if_pos hlt13]
        have s3 : selectStep (some ⟨"provider", "B", "t3"⟩)
            ⟨"provider", "C", "t2"⟩ = some ⟨"provider", "B", "t3"⟩ := by
          simp only [selectStep]
          rw [if_neg hlt32]
        rw [s1, s2, s3]
      have := hsel2.symm.trans hsel
      injection this with h
      exact h.symm
    rw [hm] at hpoll
    exact hpoll
  · exact (c6_poll_protocol 2 (fun _ => FetchResult.netError)).2
      (fun i _ => Or.inl rfl)

/-! ## Claim C7: provider-response parsing -/

set_option maxRecDepth 100000 in
/-- C7: parsing strips fence-delimiter lines, extracts the substring from
the first opening brace to the last closing brace, hands it to the JSON
parser, and fails when no brace pair is found, when JSON decoding fails, or
when a required top-level key is missing; when all five keys are present
the parsed object is returned; and a response wrapped in fenced-code markers
with surrounding prose parses to the same result as the unwrapped body. -/
theorem c7_parse_analysis {J : Type} (loads : List Char → Option J)
    (hasKey : J → String → Bool) :
    (∀ raw, (pyFind braceOpen (cleanMessage raw) = none ∨
        pyRfind braceClose (cleanMessage raw) = none) →
      parse_analysis loads hasKey raw = Except.error ParseFail.noJson) ∧
    (∀ raw s e, pyFind braceOpen (cleanMessage raw) = some s →
      pyRfind braceClose (cleanMessage raw) = some e →
      loads (braceSlice (cleanMessage raw) s e) = none →
      parse_analysis loads hasKey raw = Except.error ParseFail.decodeError) ∧
    (∀ raw s e a, pyFind braceOpen (cleanMessage raw) = some s →
      pyRfind braceClose (cleanMessage raw) = some e →
      loads (braceSlice (cleanMessage raw) s e) = some a →
      ((∃ k ∈ requiredKeys, hasKey a k = false) →
        ∃ k, parse_analysis loads hasKey raw =
          Except.error (ParseFail.missingKey k)) ∧
      ((∀ k ∈ requiredKeys, hasKey a k = true) →
        parse_analysis loads hasKey raw = Except.ok a)) ∧
    parse_analysis loads hasKey wrappedMsg.data =
      parse_analysis loads hasKey bareBody.data := by
  refine ⟨?_, ?_, ?_, ?_⟩
  · intro raw h
    rcases h with h | h
    · simp only [parse_analysis, h]
    · cases hfind : pyFind braceOpen (cleanMessage raw) with
      | none => simp only [parse_analysis, hfind]
      | some s => simp only [parse_analysis, hfind, h]
  · intro raw s e hf he hload
    simp only [parse_analysis, hf, he, hload]
  · intro raw s e a hf he hload
    constructor
    · intro hk
      obtain ⟨k, hkmem, hkf⟩ := hk
      have hsome : (requiredKeys.find? (fun k => ¬ hasKey a k)).isSome :=
        List.find?_isSome.mpr ⟨k, hkmem, by simp [hkf]⟩
      obtain ⟨k2, hk2⟩ := Option.isSome_iff_exists.mp hsome
      refine ⟨k2, ?_⟩
      simp only [parse_analysis, hf, he, hload, hk2]
    · intro hall
      have hnone : requiredKeys.find? (fun k => ¬ hasKey a k) = none :=
        List.find?_eq_none.mpr (fun k hkm => by simp [hall k hkm])
      simp only [parse_analysis, hf, he, hload, hnone]
  · rfl

/-- C7 witness: a message with no braces fails with the no-payload error,
and a minimal brace pair with an all-keys parser result succeeds. -/
theorem c7_witness :
    parse_analysis (fun _ => (none : Option ℕ)) (fun _ _ => true)
      ("no braces at all".data) = Except.error ParseFail.noJson ∧
    parse_analysis (fun _ => some 0) (fun _ _ => true) ("\x7b\x7d".data) =
      Except.ok 0 := by
  constructor
  · exact (c7_parse_analysis (fun _ => (none : Option ℕ)) (fun _ _ => true)).1
      ("no braces at all".data) (Or.inl (by decide))
  · exact ((c7_parse_analysis (fun _ => some 0) (fun _ _ => true)).2.2.1
      ("\x7b\x7d".data) 0 1 0 (by decide) (by decide) rfl).2
      (fun _ _ => rfl)

end HyperliquidSpec
